import Mathlib

/-
Verification of `LocalBroadcastChannel`
(src/Processors/Exchange/DataTrans/Local/LocalBroadcastChannel.cpp).

The channel is shallowly embedded as a pure state machine: concurrent
interleavings of `send` / `recv` / `finish` become sequences of atomic
operations on a `Channel` state, and the side effects the claims count
(memory-credit transfers, metric recordings) are returned as an explicit
trace of `Effect` values.

The transport queue (`MultiPathQueue`) and the `BroadcastStatusCode`
enumeration live in headers that are not part of the source set; they are
modelled from the spec, as marked on each such definition.
-/

namespace LocalBroadcastChannel

/-- Status codes. Modelled from the spec: the `BroadcastStatusCode`
enumeration is declared in a header outside the source set.  The spec fixes
the convention — code 0 is the unique running value, positive codes mean
hard close, negative codes mean graceful drain-then-close — and names the
codes used by the channel: receive timeout, send timeout, and the
distinguished unknown-send-error.  Only the sign and distinctness of these
values matter to the channel's logic. -/
def RUNNING : Int := 0

/-- Receive-timeout status code (positive: hard close). -/
def RECV_TIMEOUT : Int := 2

/-- Send-timeout status code (positive: hard close). -/
def SEND_TIMEOUT : Int := 3

/-- Distinguished unknown-send-error code, returned when the queue was
closed by a concurrent actor before a terminal status was published. -/
def SEND_UNKNOWN_ERROR : Int := 999

/-- Status value: code, modifier flag, diagnostic message.  The field
spelling `is_modifer` follows the source. -/
structure BroadcastStatus where
  code : Int
  is_modifer : Bool
  message : String
  deriving Repr, DecidableEq

/-- A chunk is opaque to the channel except for its payload identity and
the two byte counts it exposes (`bytes()` for metrics, `allocatedBytes()`
for memory accounting). -/
structure Chunk where
  payload : Nat
  bytes : Nat
  allocatedBytes : Nat
  deriving Repr, DecidableEq

/-- The transport item variant (`MultiPathDataPacket`): a chunk, a
send-done marker (a `String`, the sender's name), or some other
alternative that `recv`'s dispatch does not handle. -/
inductive MultiPathDataPacket where
  | chunk (c : Chunk)
  | doneMark (s : String)
  | other
  deriving Repr, DecidableEq

/-- Modelled from the spec: the bounded multi-producer/multi-consumer
transport queue (`MultiPathQueue`) is outside the source set.  Per the
spec it is an ordered, capacity-bounded sequence with a one-way `closed`
flag: inserts fail once closed or full, FIFO order is preserved, and the
positive-code close discards anything still queued. -/
structure Queue where
  items : List MultiPathDataPacket
  closed : Bool
  capacity : Nat
  deriving Repr, DecidableEq

/-- Modelled from the spec: bounded insert.  In this sequential model the
deadline-bounded wait collapses to an immediate success / failure — the
insert succeeds iff the queue is open and below capacity. -/
def Queue.tryEmplaceUntil (q : Queue) (x : MultiPathDataPacket) : Bool × Queue :=
  if q.closed || q.capacity ≤ q.items.length then (false, q)
  else (true, { q with items := q.items ++ [x] })

/-- Modelled from the spec: bounded remove.  Succeeds iff an item is
queued; an empty queue stands for the deadline elapsing (or the queue
being closed and drained). -/
def Queue.tryPopUntil (q : Queue) : Option MultiPathDataPacket × Queue :=
  match q.items with
  | [] => (none, q)
  | x :: rest => (some x, { q with items := rest })

/-- Modelled from the spec: closing discards anything still queued and
makes every future insert fail; `closed` never reverts. -/
def Queue.close (q : Queue) : Queue :=
  { q with items := [], closed := true }

/-- The channel's atomically published status pointer: either it still
points at the channel's embedded `init_status`, or at the one
heap-allocated terminal status installed by the winning `finish`. -/
inductive StatusSlot where
  | init
  | finished (s : BroadcastStatus)
  deriving Repr, DecidableEq

/-- Sender-side metrics fields touched by `finish` and read back by the
destructor. -/
structure SenderMetrics where
  finish_code : Int
  is_modifier : Nat
  message : String
  deriving Repr, DecidableEq

/-- Channel options: only the metrics switch and the maximum wait (kept
abstract as the seconds value printed into timeout messages) are used by
the modelled operations. -/
structure LocalChannelOptions where
  enable_metrics : Bool
  max_timeout_ts_sec : Nat
  deriving Repr, DecidableEq

/-- The channel state. -/
structure Channel where
  name : String
  options : LocalChannelOptions
  receive_queue : Queue
  broadcast_status : StatusSlot
  enable_sender_metrics : Bool
  enable_receiver_metrics : Bool
  sender_metrics : SenderMetrics
  deriving Repr, DecidableEq

/-- The embedded initial status: code 0 (running), not a modifier. -/
def init_status : BroadcastStatus := ⟨RUNNING, false, ""⟩

/-- Dereference the published status pointer. -/
def Channel.currentStatus (ch : Channel) : BroadcastStatus :=
  match ch.broadcast_status with
  | .init => init_status
  | .finished s => s

/-- Observable side effects of one operation, in order of occurrence. -/
inductive Effect where
  | transferThreadMemoryToGlobal (bytes : Nat)
  | transferGlobalMemoryToThread (bytes : Nat)
  | recvBytesMetric (bytes : Nat)
  | recvTimeMetric
  deriving Repr, DecidableEq

/-- The finish operation: build a candidate status (modifier
flag false), compare-and-swap the published pointer expecting the embedded
`init_status`.  The winner runs the side effects keyed on the sign of the
code, records winner metrics and returns a copy with `is_modifer = true`;
a loser deletes its candidate, records loser metrics (code of the
installed status, modifier 0, message untouched) and returns the installed
status. -/
def Channel.finish (ch : Channel) (status_code : Int) (message : String) :
    BroadcastStatus × Channel :=
  let new_status : BroadcastStatus := ⟨status_code, false, message⟩
  match ch.broadcast_status with
  | .init =>
      let q :=
        if new_status.code > 0 then ch.receive_queue.close
        else (ch.receive_queue.tryEmplaceUntil (.doneMark ch.name)).2
      let res := { new_status with is_modifer := true }
      (res,
        { ch with
          broadcast_status := .finished new_status
          receive_queue := q
          sender_metrics :=
            { finish_code := new_status.code
              is_modifier := 1
              message := new_status.message } })
  | .finished cur =>
      (cur,
        { ch with
          sender_metrics :=
            { ch.sender_metrics with
              finish_code := cur.code
              is_modifier := 0 } })

/-- The message `recv` hands to `finish` on timeout; the source prints the
deadline's seconds via `DateLUT::timeToString`, modelled as `toString`. -/
def recvTimeoutMessage (name : String) (timeout_sec : Nat) : String :=
  "Receive from channel " ++ name ++ " timeout after ms: " ++ toString timeout_sec

/-- The outcome of a `recv` call. -/
inductive RecvDataPacket where
  | chunk (c : Chunk)
  | status (s : BroadcastStatus)
  deriving Repr, DecidableEq

/-- The tail of `recv` reached when the pop yielded nothing usable: call
`finish` with the receive-timeout code, record the receive-time metric if
enabled, and return whatever status `finish` yields. -/
def Channel.recvTimeoutPath (ch : Channel) (timeout_sec : Nat) :
    RecvDataPacket × Channel × List Effect :=
  let fr := ch.finish RECV_TIMEOUT (recvTimeoutMessage ch.name timeout_sec)
  (.status fr.1, fr.2, if ch.enable_receiver_metrics then [.recvTimeMetric] else [])

/-- The recv operation: fast-path return of an already-published positive
status; otherwise pop one item.  A chunk is credited to the calling thread
and returned; a done-mark returns the currently published status; any
other variant, like a failed pop, falls through to the timeout path. -/
def Channel.recv (ch : Channel) (timeout_sec : Nat) :
    RecvDataPacket × Channel × List Effect :=
  let current_status := ch.currentStatus
  if current_status.code > 0 then (.status current_status, ch, [])
  else
    match ch.receive_queue.tryPopUntil with
    | (some data_packet, q) =>
        let ch1 := { ch with receive_queue := q }
        match data_packet with
        | .chunk recv_chunk =>
            (.chunk recv_chunk, ch1,
              (if ch.enable_receiver_metrics then [.recvBytesMetric recv_chunk.bytes] else [])
                ++ [.transferGlobalMemoryToThread recv_chunk.allocatedBytes])
        | .doneMark _ => (.status ch1.currentStatus, ch1, [])
        | .other => ch1.recvTimeoutPath timeout_sec
    | (none, _) => ch.recvTimeoutPath timeout_sec

/-- The sendImpl operation: early return of a non-running published status;
otherwise a bounded insert.  Success transfers the chunk's allocated bytes
from the thread budget to the global budget and returns the (re-read)
published status.  On failure: a closed queue returns either the re-read
terminal status or, if the status is still running, the distinguished
unknown-send-error without touching the published status; a pure deadline
expiry calls `finish` with the send-timeout code. -/
def Channel.sendImpl (ch : Channel) (chunk : Chunk) :
    BroadcastStatus × Channel × List Effect :=
  let current_status := ch.currentStatus
  if current_status.code ≠ RUNNING then (current_status, ch, [])
  else
    let allocated_bytes := chunk.allocatedBytes
    match ch.receive_queue.tryEmplaceUntil (.chunk chunk) with
    | (true, q) =>
        let ch1 := { ch with receive_queue := q }
        (ch1.currentStatus, ch1, [.transferThreadMemoryToGlobal allocated_bytes])
    | (false, _) =>
        if ch.receive_queue.closed then
          let current2 := ch.currentStatus
          if current2.code ≠ RUNNING then (current2, ch, [])
          else (⟨SEND_UNKNOWN_ERROR, false, "Send operation was interrupted"⟩, ch, [])
        else
          let fr := ch.finish SEND_TIMEOUT
            ("Send to channel " ++ ch.name ++ " timeout after ms: "
              ++ toString ch.options.max_timeout_ts_sec)
          (fr.1, fr.2, [])

/-- The merge operation: unconditionally throws `NOT_IMPLEMENTED`; the
channel state is returned unchanged alongside the error. -/
def Channel.merge (ch : Channel) : Except String Unit × Channel :=
  (.error "merge is not implemented for LocalBroadcastChannel", ch)

/-- The metrics fields of the destructor's `QueryExchangeLogElement` that
come from the channel itself (externally supplied fields such as the query
id and event time are omitted: they do not depend on channel state). -/
structure LogElement where
  type : String
  finish_code : Int
  is_modifier : Nat
  message : String
  deriving Repr, DecidableEq

/-- The record the destructor emits when metrics are enabled: the sender
metrics fields are copied verbatim. -/
def Channel.destructorLogElement (ch : Channel) : LogElement :=
  { type := "local"
    finish_code := ch.sender_metrics.finish_code
    is_modifier := ch.sender_metrics.is_modifier
    message := ch.sender_metrics.message }

/-- Recognizer for the thread-to-global memory-credit transfer. -/
def Effect.isThreadToGlobal : Effect → Bool
  | .transferThreadMemoryToGlobal _ => true
  | _ => false

/-- Recognizer for the global-to-thread memory-credit transfer. -/
def Effect.isGlobalToThread : Effect → Bool
  | .transferGlobalMemoryToThread _ => true
  | _ => false

/-- Run a sequence of finish calls, collecting the returned statuses. -/
def finishAll (ch : Channel) : List (Int × String) → List BroadcastStatus × Channel
  | [] => ([], ch)
  | c :: rest =>
      let r := ch.finish c.1 c.2
      let rr := finishAll r.2 rest
      (r.1 :: rr.1, rr.2)

/-- Run n consecutive recv calls, collecting the returned packets. -/
def recvList (ch : Channel) (timeout_sec : Nat) : Nat → List RecvDataPacket × Channel
  | 0 => ([], ch)
  | n + 1 =>
      let r := ch.recv timeout_sec
      let rr := recvList r.2.1 timeout_sec n
      (r.1 :: rr.1, rr.2)

/-- One channel operation, for stating lifetime invariants over arbitrary
operation sequences. -/
inductive Op where
  | sendOp (c : Chunk)
  | recvOp (ts : Nat)
  | finishOp (code : Int) (m : String)
  deriving Repr, DecidableEq

/-- Run a sequence of operations, keeping only the channel state. -/
def runOps (ch : Channel) : List Op → Channel
  | [] => ch
  | op :: rest =>
      let ch1 :=
        match op with
        | .sendOp c => (ch.sendImpl c).2.1
        | .recvOp ts => (ch.recv ts).2.1
        | .finishOp code m => (ch.finish code m).2
      runOps ch1 rest

/-- Whether a recv call on this state reaches the finish-with-timeout
tail: the fast path is not taken and the pop yields either nothing or an
item of the unhandled variant. -/
def Channel.recvTimesOut (ch : Channel) : Bool :=
  !(decide (ch.currentStatus.code > 0)) &&
    (match ch.receive_queue.items with
     | [] => true
     | .other :: _ => true
     | _ => false)

/-- A concrete open channel used by the witness statements. -/
def sampleChannel : Channel :=
  { name := "test_channel"
    options := { enable_metrics := true, max_timeout_ts_sec := 5 }
    receive_queue := { items := [], closed := false, capacity := 10 }
    broadcast_status := .init
    enable_sender_metrics := true
    enable_receiver_metrics := true
    sender_metrics := { finish_code := 0, is_modifier := 0, message := "" } }

/-- A concrete chunk used by the witness statements. -/
def sampleChunk : Chunk := { payload := 7, bytes := 20, allocatedBytes := 32 }

/-- Losing finish calls leave the published status slot untouched. -/
theorem finish_preserves_finished (ch : Channel) (s : BroadcastStatus)
    (c : Int) (m : String) (h : ch.broadcast_status = .finished s) :
    (ch.finish c m).2.broadcast_status = .finished s := by
  simp [Channel.finish, h]

/-- A recv call never changes the published status slot once it is a
terminal instance. -/
theorem recv_preserves_finished (ch : Channel) (s : BroadcastStatus)
    (ts : Nat) (h : ch.broadcast_status = .finished s) :
    (ch.recv ts).2.1.broadcast_status = .finished s := by
  unfold Channel.recv Channel.recvTimeoutPath
  rcases hq : ch.receive_queue.tryPopUntil with ⟨op, q⟩
  cases op with
  | none =>
      simp only [hq]
      split
      · exact h
      · exact finish_preserves_finished ch s _ _ h
  | some pkt =>
      cases pkt <;> simp only [hq] <;> split <;>
        first
          | exact h
          | exact finish_preserves_finished { ch with receive_queue := q } s _ _ h

/-- A send call never changes the published status slot once it is a
terminal instance. -/
theorem send_preserves_finished (ch : Channel) (s : BroadcastStatus)
    (c : Chunk) (h : ch.broadcast_status = .finished s) :
    (ch.sendImpl c).2.1.broadcast_status = .finished s := by
  unfold Channel.sendImpl
  rcases hq : ch.receive_queue.tryEmplaceUntil (.chunk c) with ⟨b, q⟩
  cases b with
  | true => simp only [hq]; split <;> exact h
  | false =>
      simp only [hq]
      split
      · exact h
      · split
        · exact h
        · exact finish_preserves_finished ch s _ _ h

/-- After the status slot holds a terminal instance, every further finish
call returns exactly that instance. -/
theorem finishAll_finished (s : BroadcastStatus) :
    ∀ (calls : List (Int × String)) (ch : Channel),
      ch.broadcast_status = .finished s →
      (finishAll ch calls).1 = List.replicate calls.length s := by
  intro calls
  induction calls with
  | nil => intro ch _; simp [finishAll]
  | cons hd tl ih =>
      intro ch h
      have h1 : (ch.finish hd.1 hd.2).1 = s := by simp [Channel.finish, h]
      have h2 := finish_preserves_finished ch s hd.1 hd.2 h
      simp [finishAll, h1, ih _ h2, List.replicate]

/-- C1: for every nonempty sequence of finish calls on a fresh channel,
the results are the winner's status with the modifier flag set followed by
copies with the flag clear: exactly one call observes `is_modifer = true`,
and every call's returned code and message equal the winning (first)
call's. -/
theorem finish_exactly_one_modifier (ch : Channel) (c : Int) (m : String)
    (rest : List (Int × String)) (hinit : ch.broadcast_status = .init) :
    (finishAll ch ((c, m) :: rest)).1
        = ⟨c, true, m⟩ :: List.replicate rest.length ⟨c, false, m⟩ ∧
      ((finishAll ch ((c, m) :: rest)).1.countP (fun r => r.is_modifer)) = 1 ∧
      ∀ r ∈ (finishAll ch ((c, m) :: rest)).1, r.code = c ∧ r.message = m := by
  have hres : (ch.finish c m).1 = ⟨c, true, m⟩ := by simp [Channel.finish, hinit]
  have hch1 : (ch.finish c m).2.broadcast_status = .finished ⟨c, false, m⟩ := by
    simp [Channel.finish, hinit]
  have hall : (finishAll ch ((c, m) :: rest)).1
      = ⟨c, true, m⟩ :: List.replicate rest.length ⟨c, false, m⟩ := by
    simp [finishAll, hres, finishAll_finished _ rest _ hch1]
  refine ⟨hall, ?_, ?_⟩
  · have hz : (List.replicate rest.length
        (⟨c, false, m⟩ : BroadcastStatus)).countP (fun r => r.is_modifer) = 0 := by
      refine List.countP_eq_zero.mpr ?_
      intro a ha
      have := List.eq_of_mem_replicate ha
      subst this
      simp
    rw [hall, List.countP_cons, hz]
    simp
  · rw [hall]
    intro r hr
    rcases List.mem_cons.mp hr with h | h
    · subst h; exact ⟨rfl, rfl⟩
    · have := List.eq_of_mem_replicate h
      subst this
      exact ⟨rfl, rfl⟩

/-- Witness for C1 at a concrete channel and a concrete three-call
sequence. -/
theorem finish_exactly_one_modifier_witness :
    sampleChannel.broadcast_status = StatusSlot.init ∧
      ((finishAll sampleChannel ((1, "abort") :: [(2, "late"), (-1, "done")])).1
          = ⟨1, true, "abort"⟩ :: List.replicate 2 ⟨1, false, "abort"⟩ ∧
        ((finishAll sampleChannel
            ((1, "abort") :: [(2, "late"), (-1, "done")])).1.countP
              (fun r => r.is_modifer)) = 1 ∧
        ∀ r ∈ (finishAll sampleChannel ((1, "abort") :: [(2, "late"), (-1, "done")])).1,
          r.code = 1 ∧ r.message = "abort") :=
  ⟨rfl, finish_exactly_one_modifier sampleChannel 1 "abort" [(2, "late"), (-1, "done")] rfl⟩

/-- C7: once a terminal status instance with nonzero code is published, no
later sequence of send, recv or finish calls changes the published status
slot: it keeps holding the same single extra instance. -/
theorem terminal_status_is_permanent (ch : Channel) (s : BroadcastStatus)
    (ops : List Op) (hfin : ch.broadcast_status = .finished s) (_hc : s.code ≠ 0) :
    (runOps ch ops).broadcast_status = .finished s := by
  induction ops generalizing ch with
  | nil => simpa [runOps] using hfin
  | cons op rest ih =>
      simp only [runOps]
      cases op with
      | sendOp c => exact ih _ (send_preserves_finished ch s c hfin)
      | recvOp ts => exact ih _ (recv_preserves_finished ch s ts hfin)
      | finishOp code m => exact ih _ (finish_preserves_finished ch s code m hfin)

/-- Witness for C7: a channel hard-closed with code 1, then subjected to a
send, a recv and a late finish. -/
theorem terminal_status_is_permanent_witness :
    ((sampleChannel.finish 1 "abort").2.broadcast_status
        = StatusSlot.finished ⟨1, false, "abort"⟩ ∧
      (⟨1, false, "abort"⟩ : BroadcastStatus).code ≠ 0) ∧
      (runOps (sampleChannel.finish 1 "abort").2
          [Op.sendOp sampleChunk, Op.recvOp 3, Op.finishOp 2 "late"]).broadcast_status
        = StatusSlot.finished ⟨1, false, "abort"⟩ :=
  ⟨⟨rfl, by decide⟩,
    terminal_status_is_permanent (sampleChannel.finish 1 "abort").2
      ⟨1, false, "abort"⟩ [Op.sendOp sampleChunk, Op.recvOp 3, Op.finishOp 2 "late"]
      rfl (by decide)⟩

/-- C8: merge always fails with the not-implemented error and leaves the
channel state unchanged. -/
theorem merge_not_implemented (ch : Channel) :
    ch.merge = (.error "merge is not implemented for LocalBroadcastChannel", ch) := rfl

/-- A concrete channel with two chunks already queued. -/
def loadedChannel : Channel :=
  { sampleChannel with
    receive_queue :=
      { items := [.chunk ⟨1, 10, 16⟩, .chunk ⟨2, 20, 24⟩], closed := false, capacity := 10 } }

/-- A concrete channel whose queue is already closed while the published
status still reads running. -/
def closedQueueChannel : Channel :=
  { sampleChannel with
    receive_queue := { items := [], closed := true, capacity := 10 } }

/-- C2: a winning finish with a positive code closes the queue at once —
queued items are discarded and every future insert fails — and any recv
call against the installed terminal status returns it immediately with no
queue access, no effects and no state change. -/
theorem positive_finish_closes_queue (ch : Channel) (c : Int) (m : String)
    (hinit : ch.broadcast_status = .init) (hc : 0 < c) :
    (ch.finish c m).2.receive_queue.items = [] ∧
      (ch.finish c m).2.receive_queue.closed = true ∧
      (∀ x, ((ch.finish c m).2.receive_queue.tryEmplaceUntil x).1 = false) ∧
      (∀ (ch2 : Channel) (ts : Nat), ch2.broadcast_status = .finished ⟨c, false, m⟩ →
        ch2.recv ts = (.status ⟨c, false, m⟩, ch2, [])) := by
  have hq : (ch.finish c m).2.receive_queue = ch.receive_queue.close := by
    simp [Channel.finish, hinit, hc]
  refine ⟨by simp [hq, Queue.close], by simp [hq, Queue.close], ?_, ?_⟩
  · intro x
    simp [hq, Queue.close, Queue.tryEmplaceUntil]
  · intro ch2 ts h2
    simp [Channel.recv, Channel.currentStatus, h2, hc]

/-- Witness for C2 at a concrete channel hard-closed with code 1. -/
theorem positive_finish_closes_queue_witness :
    (loadedChannel.broadcast_status = StatusSlot.init ∧ (0 : Int) < 1) ∧
      (loadedChannel.finish 1 "abort").2.receive_queue.items = [] ∧
      (loadedChannel.finish 1 "abort").2.receive_queue.closed = true :=
  ⟨⟨rfl, by decide⟩,
    (positive_finish_closes_queue loadedChannel 1 "abort" rfl (by decide)).1,
    (positive_finish_closes_queue loadedChannel 1 "abort" rfl (by decide)).2.1⟩

/-- One unfolding step of recvList. -/
theorem recvList_succ (ch : Channel) (ts n : Nat) :
    (recvList ch ts (n + 1)).1 = (ch.recv ts).1 :: (recvList (ch.recv ts).2.1 ts n).1 :=
  rfl

/-- Draining a channel whose slot holds a non-positive terminal status and
whose queue holds chunks followed by the done-mark yields the chunks in
order and then the status. -/
theorem recvList_drains (s : BroadcastStatus) (nm : String) (ts : Nat)
    (hcode : ¬ s.code > 0) :
    ∀ (chunks : List Chunk) (ch : Channel),
      ch.broadcast_status = .finished s →
      ch.receive_queue.items = chunks.map .chunk ++ [.doneMark nm] →
      (recvList ch ts (chunks.length + 1)).1
        = chunks.map RecvDataPacket.chunk ++ [.status s] := by
  intro chunks
  induction chunks with
  | nil =>
      intro ch hs hq
      simp only [List.map_nil, List.nil_append] at hq
      have hpop : ch.receive_queue.tryPopUntil
          = (some (.doneMark nm),
             { ch.receive_queue with items := ([] : List MultiPathDataPacket) }) := by
        unfold Queue.tryPopUntil
        rw [hq]
      have hstep : ch.recv ts
          = (.status s,
             { ch with receive_queue :=
                 { ch.receive_queue with items := ([] : List MultiPathDataPacket) } },
             ([] : List Effect)) := by
        unfold Channel.recv
        rw [hpop]
        simp [Channel.currentStatus, hs, hcode]
      simp [recvList, hstep]
  | cons c0 cs ih =>
      intro ch hs hq
      simp only [List.map_cons, List.cons_append] at hq
      have hpop : ch.receive_queue.tryPopUntil
          = (some (.chunk c0),
             { ch.receive_queue with items := cs.map .chunk ++ [.doneMark nm] }) := by
        unfold Queue.tryPopUntil
        rw [hq]
      have hstep : ch.recv ts
          = (.chunk c0,
             { ch with receive_queue :=
                 { ch.receive_queue with items := cs.map .chunk ++ [.doneMark nm] } },
             (if ch.enable_receiver_metrics then [.recvBytesMetric c0.bytes] else [])
               ++ [.transferGlobalMemoryToThread c0.allocatedBytes]) := by
        unfold Channel.recv
        rw [hpop]
        simp [Channel.currentStatus, hs, hcode]
      have hih := ih
        { ch with receive_queue :=
            { ch.receive_queue with items := cs.map .chunk ++ [.doneMark nm] } }
        (by simpa using hs) (by simp)
      rw [recvList_succ, hstep]
      simp only [List.length_cons]
      rw [hih]
      simp

/-- C3: a winning finish with a negative code enqueues the done-mark
(the queue being open with room left), and every chunk queued before the
call is still delivered by subsequent recv calls, in insertion order,
before the terminal status is observed. -/
theorem negative_finish_drains_in_order (ch : Channel) (c : Int) (m : String)
    (chunks : List Chunk) (ts : Nat)
    (hinit : ch.broadcast_status = .init) (hc : c < 0)
    (hopen : ch.receive_queue.closed = false)
    (hitems : ch.receive_queue.items = chunks.map .chunk)
    (hcap : chunks.length < ch.receive_queue.capacity) :
    (ch.finish c m).2.receive_queue.items
        = chunks.map .chunk ++ [.doneMark ch.name] ∧
      (recvList (ch.finish c m).2 ts (chunks.length + 1)).1
        = chunks.map RecvDataPacket.chunk ++ [.status ⟨c, false, m⟩] := by
  have hnotpos : ¬ (c > 0) := by omega
  have hemp : ch.receive_queue.tryEmplaceUntil (.doneMark ch.name)
      = (true,
         { ch.receive_queue with items := chunks.map .chunk ++ [.doneMark ch.name] }) := by
    simp [Queue.tryEmplaceUntil, hopen, hitems, hcap]
  have hfin : (ch.finish c m).2
      = { ch with
          broadcast_status := .finished ⟨c, false, m⟩
          receive_queue :=
            { ch.receive_queue with items := chunks.map .chunk ++ [.doneMark ch.name] }
          sender_metrics := ⟨c, 1, m⟩ } := by
    simp [Channel.finish, hinit, hnotpos, hemp]
  refine ⟨by simp [hfin], ?_⟩
  exact recvList_drains ⟨c, false, m⟩ ch.name ts hnotpos chunks _
    (by simp [hfin]) (by simp [hfin])

/-- Witness for C3: two queued chunks survive a graceful finish with code
-1 and are received in order before the terminal status. -/
theorem negative_finish_drains_in_order_witness :
    (loadedChannel.broadcast_status = StatusSlot.init ∧ (-1 : Int) < 0 ∧
        loadedChannel.receive_queue.closed = false ∧
        loadedChannel.receive_queue.items
          = ([⟨1, 10, 16⟩, ⟨2, 20, 24⟩] : List Chunk).map .chunk ∧
        ([⟨1, 10, 16⟩, ⟨2, 20, 24⟩] : List Chunk).length
          < loadedChannel.receive_queue.capacity) ∧
      (recvList (loadedChannel.finish (-1) "done").2 5
          (([⟨1, 10, 16⟩, ⟨2, 20, 24⟩] : List Chunk).length + 1)).1
        = ([⟨1, 10, 16⟩, ⟨2, 20, 24⟩] : List Chunk).map RecvDataPacket.chunk
            ++ [.status ⟨-1, false, "done"⟩] :=
  ⟨⟨rfl, by decide, rfl, rfl, by decide⟩,
    (negative_finish_drains_in_order loadedChannel (-1) "done"
      [⟨1, 10, 16⟩, ⟨2, 20, 24⟩] 5 rfl (by decide) rfl rfl (by decide)).2⟩

/-- C5: when the queue is closed while the published status still reads
running, send returns the distinguished unknown-send-error status without
changing the channel (in particular without touching the published status
slot); when the re-read status is already terminal, that terminal status
is returned instead, again without change. -/
theorem send_on_closed_queue (ch : Channel) (c : Chunk)
    (hclosed : ch.receive_queue.closed = true) :
    (ch.currentStatus.code = RUNNING →
       ch.sendImpl c
         = (⟨SEND_UNKNOWN_ERROR, false, "Send operation was interrupted"⟩, ch, [])) ∧
      (ch.currentStatus.code ≠ RUNNING →
       ch.sendImpl c = (ch.currentStatus, ch, [])) := by
  have hemp : ch.receive_queue.tryEmplaceUntil (.chunk c) = (false, ch.receive_queue) := by
    simp [Queue.tryEmplaceUntil, hclosed]
  constructor
  · intro hrun
    simp [Channel.sendImpl, hrun, hemp, hclosed]
  · intro hterm
    simp [Channel.sendImpl, hterm]

/-- Witness for C5 at a concrete running channel with a closed queue. -/
theorem send_on_closed_queue_witness :
    closedQueueChannel.receive_queue.closed = true ∧
      (closedQueueChannel.currentStatus.code = RUNNING →
        closedQueueChannel.sendImpl sampleChunk
          = (⟨SEND_UNKNOWN_ERROR, false, "Send operation was interrupted"⟩,
             closedQueueChannel, [])) :=
  ⟨rfl, (send_on_closed_queue closedQueueChannel sampleChunk rfl).1⟩

/-- Recognizer for the receive-time metric recording. -/
def Effect.isRecvTime : Effect → Bool
  | .recvTimeMetric => true
  | _ => false

/-- Shape of recv on the fast path: a published positive code is returned
at once, with no queue access and no effects. -/
theorem recv_fast_eq (ch : Channel) (ts : Nat)
    (hfast : ch.currentStatus.code > 0) :
    ch.recv ts = (.status ch.currentStatus, ch, []) := by
  simp [Channel.recv, hfast]

/-- Shape of recv when the queue head is a chunk. -/
theorem recv_chunk_eq (ch : Channel) (ts : Nat) (c0 : Chunk)
    (rest : List MultiPathDataPacket)
    (hfast : ¬ ch.currentStatus.code > 0)
    (hq : ch.receive_queue.items = .chunk c0 :: rest) :
    ch.recv ts
      = (.chunk c0,
         { ch with receive_queue := { ch.receive_queue with items := rest } },
         (if ch.enable_receiver_metrics then [.recvBytesMetric c0.bytes] else [])
           ++ [.transferGlobalMemoryToThread c0.allocatedBytes]) := by
  have hpop : ch.receive_queue.tryPopUntil
      = (some (.chunk c0), { ch.receive_queue with items := rest }) := by
    unfold Queue.tryPopUntil
    rw [hq]
  unfold Channel.recv
  rw [hpop]
  simp [hfast]

/-- Shape of recv when the queue head is the done-mark. -/
theorem recv_doneMark_eq (ch : Channel) (ts : Nat) (nm : String)
    (rest : List MultiPathDataPacket)
    (hfast : ¬ ch.currentStatus.code > 0)
    (hq : ch.receive_queue.items = .doneMark nm :: rest) :
    ch.recv ts
      = (.status ch.currentStatus,
         { ch with receive_queue := { ch.receive_queue with items := rest } },
         []) := by
  have hpop : ch.receive_queue.tryPopUntil
      = (some (.doneMark nm), { ch.receive_queue with items := rest }) := by
    unfold Queue.tryPopUntil
    rw [hq]
  unfold Channel.recv
  rw [hpop]
  simp only [hfast, if_neg, ite_false, decide_eq_true_eq]
  simp [hfast]
  simp [Channel.currentStatus]

/-- Shape of recv when the queue head is the unhandled variant: it falls
through to the timeout tail after consuming the item. -/
theorem recv_other_eq (ch : Channel) (ts : Nat)
    (rest : List MultiPathDataPacket)
    (hfast : ¬ ch.currentStatus.code > 0)
    (hq : ch.receive_queue.items = .other :: rest) :
    ch.recv ts
      = Channel.recvTimeoutPath
          { ch with receive_queue := { ch.receive_queue with items := rest } } ts := by
  have hpop : ch.receive_queue.tryPopUntil
      = (some .other, { ch.receive_queue with items := rest }) := by
    unfold Queue.tryPopUntil
    rw [hq]
  unfold Channel.recv
  rw [hpop]
  simp [hfast]

/-- Shape of recv when the queue is empty: the pop fails and the call
takes the timeout tail. -/
theorem recv_empty_eq (ch : Channel) (ts : Nat)
    (hfast : ¬ ch.currentStatus.code > 0)
    (hq : ch.receive_queue.items = []) :
    ch.recv ts = ch.recvTimeoutPath ts := by
  have hpop : ch.receive_queue.tryPopUntil = (none, ch.receive_queue) := by
    unfold Queue.tryPopUntil
    rw [hq]
  unfold Channel.recv
  rw [hpop]
  simp [hfast]

/-- C4: memory-credit transfers are paired with queue crossings.  Send
performs exactly one thread-to-global transfer of the chunk's allocated
bytes iff the insertion is attempted and succeeds, and recv performs
exactly one global-to-thread transfer, of the returned chunk's allocated
bytes, iff a chunk is dequeued; every other path of either operation
performs none. -/
theorem memory_transfers_paired (ch : Channel) (c : Chunk) (ts : Nat) :
    ((ch.sendImpl c).2.2
        = if ch.currentStatus.code = RUNNING
              ∧ (ch.receive_queue.tryEmplaceUntil (.chunk c)).1 = true
          then [.transferThreadMemoryToGlobal c.allocatedBytes] else []) ∧
      ((ch.recv ts).2.2.countP Effect.isGlobalToThread
        = match (ch.recv ts).1 with
          | .chunk _ => 1
          | .status _ => 0) ∧
      (∀ ck, (ch.recv ts).1 = .chunk ck →
        Effect.transferGlobalMemoryToThread ck.allocatedBytes ∈ (ch.recv ts).2.2) := by
  have hrecv :
      ((ch.recv ts).2.2.countP Effect.isGlobalToThread
          = match (ch.recv ts).1 with
            | .chunk _ => 1
            | .status _ => 0) ∧
        (∀ ck, (ch.recv ts).1 = .chunk ck →
          Effect.transferGlobalMemoryToThread ck.allocatedBytes ∈ (ch.recv ts).2.2) := by
    by_cases hfast : ch.currentStatus.code > 0
    · simp [recv_fast_eq ch ts hfast]
    · rcases hq : ch.receive_queue.items with _ | ⟨pkt, rest⟩
      · rw [recv_empty_eq ch ts hfast hq]
        unfold Channel.recvTimeoutPath
        constructor
        · split <;> simp [Effect.isGlobalToThread]
        · intro ck hck
          simp at hck
      · cases pkt with
        | chunk c0 =>
            rw [recv_chunk_eq ch ts c0 rest hfast hq]
            constructor
            · simp [List.countP_append, Effect.isGlobalToThread]
            · intro ck hck
              simp at hck
              subst hck
              simp
        | doneMark nm =>
            rw [recv_doneMark_eq ch ts nm rest hfast hq]
            constructor
            · simp
            · intro ck hck
              simp at hck
        | other =>
            rw [recv_other_eq ch ts rest hfast hq]
            unfold Channel.recvTimeoutPath
            constructor
            · split <;> simp [Effect.isGlobalToThread]
            · intro ck hck
              simp at hck
  refine ⟨?_, hrecv.1, hrecv.2⟩
  by_cases hrun : ch.currentStatus.code = RUNNING
  · rcases hemp : ch.receive_queue.tryEmplaceUntil (.chunk c) with ⟨b, q⟩
    cases b with
    | true => simp [Channel.sendImpl, hemp, hrun]
    | false =>
        simp [Channel.sendImpl, hemp, hrun]
        split <;> simp
  · simp [Channel.sendImpl, hrun]

/-- Witness for C4 at a concrete running channel accepting one chunk. -/
theorem memory_transfers_paired_witness :
    (loadedChannel.sendImpl sampleChunk).2.2
        = (if loadedChannel.currentStatus.code = RUNNING
              ∧ (loadedChannel.receive_queue.tryEmplaceUntil (.chunk sampleChunk)).1 = true
           then [.transferThreadMemoryToGlobal sampleChunk.allocatedBytes] else []) ∧
      ∀ ck, (loadedChannel.recv 5).1 = .chunk ck →
        Effect.transferGlobalMemoryToThread ck.allocatedBytes ∈ (loadedChannel.recv 5).2.2 :=
  ⟨(memory_transfers_paired loadedChannel sampleChunk 5).1,
    (memory_transfers_paired loadedChannel sampleChunk 5).2.2⟩

/-- C6 as written is false: a recv call that takes the fast path records
no receive-time sample even with receiver metrics enabled.  Counterexample
at a hard-closed channel with metrics on. -/
theorem recv_time_metric_counterexample :
    ({ sampleChannel with
        broadcast_status := StatusSlot.finished ⟨1, false, "abort"⟩ }
          : Channel).enable_receiver_metrics = true ∧
      (({ sampleChannel with
          broadcast_status := StatusSlot.finished ⟨1, false, "abort"⟩ }
            : Channel).recv 5).2.2.countP Effect.isRecvTime ≠ 1 := by
  constructor
  · rfl
  · decide

/-- C6 amended: the receive-time metric is recorded exactly once, and only
when receiver metrics are enabled and the call takes the timeout tail
(failed pop or unhandled item); the fast-path, chunk and end-of-stream
outcomes record it zero times. -/
theorem recv_time_metric_on_timeout_only (ch : Channel) (ts : Nat) :
    (ch.recv ts).2.2.countP Effect.isRecvTime
      = if ch.enable_receiver_metrics && ch.recvTimesOut then 1 else 0 := by
  by_cases hfast : ch.currentStatus.code > 0
  · simp [recv_fast_eq ch ts hfast, Channel.recvTimesOut, hfast]
  · rcases hq : ch.receive_queue.items with _ | ⟨pkt, rest⟩
    · rw [recv_empty_eq ch ts hfast hq]
      unfold Channel.recvTimeoutPath
      simp [Channel.recvTimesOut, hfast, hq]
      split <;> simp_all [Effect.isRecvTime]
    · cases pkt with
      | chunk c0 =>
          rw [recv_chunk_eq ch ts c0 rest hfast hq]
          simp [Channel.recvTimesOut, hfast, hq, List.countP_append, Effect.isRecvTime]
      | doneMark nm =>
          rw [recv_doneMark_eq ch ts nm rest hfast hq]
          simp [Channel.recvTimesOut, hfast, hq]
      | other =>
          rw [recv_other_eq ch ts rest hfast hq]
          unfold Channel.recvTimeoutPath
          simp [Channel.recvTimesOut, hfast, hq]
          split <;> simp_all [Effect.isRecvTime]

/-- C9: when recv dequeues an item that is neither a chunk nor the
done-mark, it behaves exactly like a timeout: the item is consumed, the
call reaches the same finish-with-receive-timeout tail a failed pop
reaches, the status that finish yields is returned, and no memory-credit
transfer happens for that item. -/
theorem recv_unhandled_item_like_timeout (ch : Channel) (ts : Nat)
    (rest : List MultiPathDataPacket)
    (hfast : ¬ ch.currentStatus.code > 0)
    (hq : ch.receive_queue.items = .other :: rest) :
    ch.recv ts
        = Channel.recvTimeoutPath
            { ch with receive_queue := { ch.receive_queue with items := rest } } ts ∧
      (ch.recv ts).1
        = .status (({ ch with receive_queue := { ch.receive_queue with items := rest } }
            : Channel).finish RECV_TIMEOUT (recvTimeoutMessage ch.name ts)).1 ∧
      (ch.recv ts).2.2.countP Effect.isGlobalToThread = 0 := by
  have h1 := recv_other_eq ch ts rest hfast hq
  refine ⟨h1, ?_, ?_⟩
  · rw [h1]
    unfold Channel.recvTimeoutPath
    simp
  · rw [h1]
    unfold Channel.recvTimeoutPath
    split <;> simp [Effect.isGlobalToThread]

/-- Witness for C9 at a concrete running channel holding one unhandled
item. -/
theorem recv_unhandled_item_like_timeout_witness :
    (¬ ({ sampleChannel with
          receive_queue := { items := [.other], closed := false, capacity := 10 } }
            : Channel).currentStatus.code > 0 ∧
        ({ sampleChannel with
          receive_queue := { items := [.other], closed := false, capacity := 10 } }
            : Channel).receive_queue.items = [.other]) ∧
      (({ sampleChannel with
          receive_queue := { items := [.other], closed := false, capacity := 10 } }
            : Channel).recv 5).2.2.countP Effect.isGlobalToThread = 0 :=
  ⟨⟨by decide, rfl⟩,
    (recv_unhandled_item_like_timeout
      { sampleChannel with
        receive_queue := { items := [.other], closed := false, capacity := 10 } }
      5 [] (by decide) rfl).2.2⟩

/-- C10: a losing finish overwrites the recorded finish code with the
installed status's code and clears the recorded modifier flag — even when
an earlier winning finish had set it to 1 — while leaving the recorded
message unchanged; the destructor's log record copies exactly these
fields, so it reflects the most recent finish call. -/
theorem losing_finish_overwrites_metrics (ch : Channel) (s : BroadcastStatus)
    (c : Int) (m : String) (hfin : ch.broadcast_status = .finished s) :
    (ch.finish c m).2.sender_metrics.finish_code = s.code ∧
      (ch.finish c m).2.sender_metrics.is_modifier = 0 ∧
      (ch.finish c m).2.sender_metrics.message = ch.sender_metrics.message ∧
      (ch.finish c m).2.destructorLogElement
        = { type := "local", finish_code := s.code, is_modifier := 0,
            message := ch.sender_metrics.message } := by
  simp [Channel.finish, hfin, Channel.destructorLogElement]

/-- Witness for C10: a channel whose first finish won (modifier recorded
as 1) loses a second finish, which drops the recorded modifier back to 0
while keeping the winner's message in the metrics. -/
theorem losing_finish_overwrites_metrics_witness :
    (sampleChannel.finish 1 "won").2.broadcast_status
        = StatusSlot.finished ⟨1, false, "won"⟩ ∧
      ((sampleChannel.finish 1 "won").2.finish 2 "late").2.sender_metrics.finish_code = 1 ∧
      ((sampleChannel.finish 1 "won").2.finish 2 "late").2.sender_metrics.is_modifier = 0 ∧
      ((sampleChannel.finish 1 "won").2.finish 2 "late").2.sender_metrics.message
        = (sampleChannel.finish 1 "won").2.sender_metrics.message :=
  ⟨rfl,
    (losing_finish_overwrites_metrics (sampleChannel.finish 1 "won").2
      ⟨1, false, "won"⟩ 2 "late" rfl).1,
    (losing_finish_overwrites_metrics (sampleChannel.finish 1 "won").2
      ⟨1, false, "won"⟩ 2 "late" rfl).2.1,
    (losing_finish_overwrites_metrics (sampleChannel.finish 1 "won").2
      ⟨1, false, "won"⟩ 2 "late" rfl).2.2.1⟩

end LocalBroadcastChannel
